import Mathlib

/-!
Shallow embedding of the Loreweaver core (`src/lib.rs`): data model,
token-budget computation, role mapping, context assembly and the
`prompt` orchestrator, together with theorems settling the spec claims.

Conventions of the embedding:
* Rust `u16`/`u64`/`u128` machine integers are modelled as `Nat`; every
  value reachable in the modelled code paths is far below the wrap-around
  bound of its Rust type, so no explicit modular reduction is needed.
* The Rust expression `(max_tokens as f64 * 0.75) as MaxTokens` is modelled
  by exact integer arithmetic `max_tokens * 3 / 4`; since `0.75 = 3/4` is a
  dyadic rational, the `f64` computation is exact (and equal to this) for
  all token counts below `2 ^ 51`, which covers every context capacity in
  the model catalog.
* A Rust panic (`panic!`, out-of-bounds index, `.unwrap()` on `Err`) is
  modelled as `Option.none` in a converted value, or as the explicit
  `PromptOutcome.panicked` outcome of the orchestrator.
* The external collaborators (storage gateway, LLM client, clock) are
  modelled by a `PromptEnv` record supplying their results for one call.
-/

namespace Loom

/-- `async_openai::types::Role`: the target LLM role enumeration. -/
inductive Role where
  | System
  | User
  | Assistant
deriving DecidableEq, Repr

/-- `ContextMessage`: one message in a story part (`src/lib.rs` lines 67-74). -/
structure ContextMessage where
  role : String
  account_id : Option String
  username : Option String
  content : String
  timestamp : String
deriving DecidableEq, Repr

/-- `StoryPart` (`src/lib.rs` lines 84-97). -/
structure StoryPart where
  players : List Nat
  context_tokens : Nat
  context_messages : List ContextMessage
deriving DecidableEq, Repr

/-- The derived `Default` instance of `StoryPart`: empty roster, zero
tokens, no messages. -/
def StoryPart.default : StoryPart :=
  { players := [], context_tokens := 0, context_messages := [] }

/-- `models::Models` (`src/lib.rs` lines 292-295). -/
inductive Models where
  | GPT3
  | GPT4
deriving DecidableEq, Repr

/-- `Models::name`. -/
def Models.name : Models → String
  | .GPT3 => "gpt-3.5-turbo"
  | .GPT4 => "gpt-4"

/-- `Models::max_context_tokens`. -/
def Models.max_context_tokens : Models → Nat
  | .GPT3 => 4096
  | .GPT4 => 8192

/-- `Models::default_max_response_tokens`:
`(model.max_context_tokens() - tokens_in_context) / 3` on `u128`.
The Rust subtraction panics on underflow; truncated `Nat` subtraction
agrees with it on every input with `tokens_in_context ≤ capacity`,
which is the documented precondition. -/
def Models.default_max_response_tokens (model : Models) (tokens_in_context : Nat) : Nat :=
  (model.max_context_tokens - tokens_in_context) / 3

/-- `Loreweaver::max_words` (`src/lib.rs` lines 137-146): the override
token budget, when supplied, replaces the computed default, and the
result is then converted to words by `* 0.75` (here `* 3 / 4`, exact). -/
def max_words (model : Models) (custom_max_tokens : Option Nat) (context_tokens : Nat) : Nat :=
  let max_tokens :=
    custom_max_tokens.getD (Models.default_max_response_tokens model context_tokens)
  max_tokens * 3 / 4

/-- `WeaveError` (`src/lib.rs` lines 149-159); the wrapped `StorageError`
payload is modelled as a string. -/
inductive WeaveError where
  | FailedPromptOpenAI
  | FailedToGetContent
  | BadOpenAIRole
  | Storage (e : String)
deriving DecidableEq, Repr

/-- `impl From<String> for WrapperRole` (`src/lib.rs` lines 174-183).
The Rust conversion panics on any string outside the three role
literals; the panic is modelled as `none`. -/
def wrapperRoleFromString (role : String) : Option Role :=
  if role = "system" then some Role.System
  else if role = "assistant" then some Role.Assistant
  else if role = "user" then some Role.User
  else none

/-- A role string accepted by the `WrapperRole` conversion. -/
def validRole (s : String) : Prop :=
  s = "system" ∨ s = "assistant" ∨ s = "user"

instance (s : String) : Decidable (validRole s) := by
  unfold validRole
  infer_instance

/-- One entry of the rendered LLM request payload
(`async_openai` `ChatCompletionRequestMessage`): role, content, and the
optional display name set via `.name(..)`. -/
structure RequestMessage where
  role : Role
  content : String
  name : Option String
deriving DecidableEq, Repr

/-- Rendering of one `ContextMessage` into the request payload
(`src/lib.rs` lines 234-245): role via the `WrapperRole` conversion
(panic on an unknown role string), display name `"Loreweaver"` for
system-role entries and the composed username for assistant/user
entries (the `_` name arm, unreachable after the role conversion,
panics via `Err(BadOpenAIRole).unwrap()`). `none` models a panic. -/
def renderContextMessage (username_with_nick : String) (m : ContextMessage) :
    Option RequestMessage :=
  match wrapperRoleFromString m.role with
  | none => none
  | some r =>
    if m.role = "system" then
      some { role := r, content := m.content, name := some "Loreweaver" }
    else if m.role = "assistant" ∨ m.role = "user" then
      some { role := r, content := m.content, name := some username_with_nick }
    else none

/-- The rendered request payload (`src/lib.rs` lines 220-247): the system
directive as a first system-role entry (built with no `.name(..)` call),
followed by every context message rendered in stored order. `none`
models a panic while rendering some message. -/
def renderRequest (system : String) (username_with_nick : String)
    (msgs : List ContextMessage) : Option (List RequestMessage) :=
  match msgs.mapM (renderContextMessage username_with_nick) with
  | none => none
  | some rendered =>
    some ({ role := Role.System, content := system, name := none } :: rendered)

/-- Username composition (`src/lib.rs` lines 206-209):
`format!("{}{}", username, pseudo_username)` when a pseudo-username is
supplied, else the username alone. -/
def composeUsername (username : String) (pseudo_username : Option String) : String :=
  match pseudo_username with
  | some pseudo_username => username ++ pseudo_username
  | none => username

/-- The user `ContextMessage` appended by `prompt` (`src/lib.rs` lines
211-217): role `"user"`, no account id, the composed username as display
name, the caller's text, the call-time timestamp. -/
def userMessage (username_with_nick msg timestamp : String) : ContextMessage :=
  { role := "user", account_id := none, username := some username_with_nick,
    content := msg, timestamp := timestamp }

/-- The assistant `ContextMessage` appended by `prompt` (`src/lib.rs`
lines 266-272): role `"assistant"`, no account id, no display name, the
extracted reply, the call-time timestamp. -/
def assistantMessage (content timestamp : String) : ContextMessage :=
  { role := "assistant", account_id := none, username := none,
    content := content, timestamp := timestamp }

/-- The optional `content` of one completion choice's message. -/
structure ChatResponseMessage where
  content : Option String
deriving DecidableEq, Repr

/-- One completion choice of the LLM response. -/
structure ChatChoice where
  message : ChatResponseMessage
deriving DecidableEq, Repr

/-- `CreateChatCompletionResponse`, reduced to the `choices` list that
`prompt` reads. -/
structure ChatResponse where
  choices : List ChatChoice
deriving DecidableEq, Repr

/-- The external collaborators of one `prompt` call: the storage load
result, the LLM call result, the storage save behaviour, and the two
clock readings taken for the appended messages. -/
structure PromptEnv where
  load_result : Except String (Option StoryPart)
  llm_result : Except Unit ChatResponse
  save_result : StoryPart → Bool → Except String Unit
  now_user : String
  now_assistant : String

/-- How one `prompt` call ends: a Rust panic, a typed `WeaveError`, or a
returned reply string. -/
inductive PromptOutcome where
  | panicked
  | err (e : WeaveError)
  | ok (reply : String)
deriving DecidableEq, Repr

/-- Observable trace of one `prompt` call: the outcome, the payload and
word budget handed to `do_prompt` (when the call got that far), and the
successful `save_story_part` call with its `increment` flag (when one
was made). -/
structure PromptTrace where
  outcome : PromptOutcome
  llm_request : Option (List RequestMessage × Nat)
  saved : Option (StoryPart × Bool)
deriving DecidableEq, Repr

/-- `Loreweaver::prompt` (`src/lib.rs` lines 188-282), with the external
collaborators supplied by `env`. Mirrors the source order: load the last
story part (empty default when absent), compose the username, append the
user message, render the request payload, compute the word budget from
the story part's (unchanged) `context_tokens`, invoke the LLM, extract
`res.choices[0]...content` (index panic on an empty `choices`, typed
`FailedToGetContent` on an absent content), append the assistant
message, and save with `increment = false`. -/
def prompt (env : PromptEnv) (model : Models) (system : String) (msg : String)
    (username : String) (pseudo_username : Option String) : PromptTrace :=
  match env.load_result with
  | .error e => { outcome := .err (.Storage e), llm_request := none, saved := none }
  | .ok loaded =>
    let story_part := loaded.getD StoryPart.default
    let username_with_nick := composeUsername username pseudo_username
    let story_part :=
      { story_part with
        context_messages := story_part.context_messages ++
          [userMessage username_with_nick msg env.now_user] }
    match renderRequest system username_with_nick story_part.context_messages with
    | none => { outcome := .panicked, llm_request := none, saved := none }
    | some request_messages =>
      let max_response_words := max_words model none story_part.context_tokens
      match env.llm_result with
      | .error _ =>
        { outcome := .err .FailedPromptOpenAI,
          llm_request := some (request_messages, max_response_words), saved := none }
      | .ok res =>
        match res.choices with
        | [] =>
          { outcome := .panicked,
            llm_request := some (request_messages, max_response_words), saved := none }
        | choice :: _ =>
          match choice.message.content with
          | none =>
            { outcome := .err .FailedToGetContent,
              llm_request := some (request_messages, max_response_words), saved := none }
          | some response_content =>
            let story_part :=
              { story_part with
                context_messages := story_part.context_messages ++
                  [assistantMessage response_content env.now_assistant] }
            match env.save_result story_part false with
            | .error e =>
              { outcome := .err (.Storage e),
                llm_request := some (request_messages, max_response_words), saved := none }
            | .ok _ =>
              { outcome := .ok response_content,
                llm_request := some (request_messages, max_response_words),
                saved := some (story_part, false) }

/-- The story part persisted for the identity after one call: the saved
part when a save succeeded, else the pre-call value. -/
def finalStorage (pre : Option StoryPart) (saved : Option (StoryPart × Bool)) :
    Option StoryPart :=
  match saved with
  | some (sp, _) => some sp
  | none => pre

/-- The `RequestMessage` a `ContextMessage` with a valid role renders to. -/
def renderedOf (username_with_nick : String) (m : ContextMessage) : RequestMessage :=
  { role := (wrapperRoleFromString m.role).getD Role.System
  , content := m.content
  , name := some (if m.role = "system" then "Loreweaver" else username_with_nick) }

theorem renderContextMessage_eq (u : String) (m : ContextMessage) (h : validRole m.role) :
    renderContextMessage u m = some (renderedOf u m) := by
  obtain ⟨role, aid, un, content, ts⟩ := m
  rcases h with h | h | h <;> subst h <;> rfl

theorem mapM_loop_renderContextMessage (u : String) (msgs : List ContextMessage)
    (acc : List RequestMessage) (h : ∀ m ∈ msgs, validRole m.role) :
    List.mapM.loop (renderContextMessage u) msgs acc =
      some (acc.reverse ++ msgs.map (renderedOf u)) := by
  induction msgs generalizing acc with
  | nil => simp [List.mapM.loop]
  | cons m rest ih =>
    have hm := h m (List.mem_cons_self ..)
    have hr : ∀ x ∈ rest, validRole x.role := fun x hx => h x (List.mem_cons_of_mem _ hx)
    simp [List.mapM.loop, renderContextMessage_eq u m hm, ih _ hr]

theorem mapM_renderContextMessage (u : String) (msgs : List ContextMessage)
    (h : ∀ m ∈ msgs, validRole m.role) :
    msgs.mapM (renderContextMessage u) = some (msgs.map (renderedOf u)) := by
  simpa using mapM_loop_renderContextMessage u msgs [] h

theorem renderRequest_eq (system u : String) (msgs : List ContextMessage)
    (h : ∀ m ∈ msgs, validRole m.role) :
    renderRequest system u msgs =
      some ({ role := Role.System, content := system, name := none } ::
        msgs.map (renderedOf u)) := by
  unfold renderRequest
  rw [mapM_renderContextMessage u msgs h]

theorem prompt_success_trace (env : PromptEnv) (model : Models)
    (system msg username : String) (pseudo_username : Option String)
    (lp : Option StoryPart) (r : String) (cs : List ChatChoice)
    (hload : env.load_result = .ok lp)
    (hroles : ∀ m ∈ (lp.getD StoryPart.default).context_messages, validRole m.role)
    (hllm : env.llm_result =
      .ok { choices := { message := { content := some r } } :: cs })
    (hsave : ∀ sp b, env.save_result sp b = .ok ()) :
    prompt env model system msg username pseudo_username =
      { outcome := .ok r
      , llm_request := some
          ( { role := Role.System, content := system, name := none } ::
              ((lp.getD StoryPart.default).context_messages ++
                [userMessage (composeUsername username pseudo_username) msg
                  env.now_user]).map
                (renderedOf (composeUsername username pseudo_username))
          , max_words model none (lp.getD StoryPart.default).context_tokens )
      , saved := some
          ( { lp.getD StoryPart.default with
              context_messages := (lp.getD StoryPart.default).context_messages ++
                [userMessage (composeUsername username pseudo_username) msg env.now_user,
                 assistantMessage r env.now_assistant] }
          , false ) } := by
  have hroles' : ∀ m ∈ (lp.getD StoryPart.default).context_messages ++
      [userMessage (composeUsername username pseudo_username) msg env.now_user],
      validRole m.role := by
    intro m hm
    rcases List.mem_append.mp hm with hm | hm
    · exact hroles m hm
    · simp only [List.mem_singleton] at hm
      subst hm
      right; right; rfl
  simp only [prompt, hload]
  simp [renderRequest_eq _ _ _ hroles', hllm, hsave, List.append_assoc]

/-- C1, counterexample: with override token budget 100 (model GPT3,
prior context 0), `max_words` returns `floor(100 * 0.75) = 75`, not the
override value 100 — the claim "the computed response word budget equals
exactly the override value" is false on the code. -/
theorem max_words_override_counterexample :
    max_words Models.GPT3 (some 100) 0 = 75 ∧
    max_words Models.GPT3 (some 100) 0 ≠ 100 := by
  decide

/-- C1, amended: for every model and prior-context token count, a
caller-supplied override token budget replaces the computed default
token budget (taking precedence over it), and the word budget is the
override scaled by 0.75 and truncated: `override * 3 / 4`. -/
theorem max_words_override_takes_precedence (model : Models) (custom : Nat)
    (context_tokens : Nat) :
    max_words model (some custom) context_tokens = custom * 3 / 4 := rfl

/-- C2: with no override and prior context `t ≤ capacity C`, the word
budget is `floor(floor((C - t) / 3) * 0.75)`; concretely GPT3 (capacity
4096) at `t = 1000` gives token budget 1032 and word budget 774, and
GPT4 (capacity 8192) at `t = 0` gives token budget 2730 and word budget
2047. -/
theorem max_words_default_formula (model : Models) (t : Nat)
    (h : t ≤ model.max_context_tokens) :
    max_words model none t = (model.max_context_tokens - t) / 3 * 3 / 4 ∧
    Models.default_max_response_tokens Models.GPT3 1000 = 1032 ∧
    max_words Models.GPT3 none 1000 = 774 ∧
    Models.default_max_response_tokens Models.GPT4 0 = 2730 ∧
    max_words Models.GPT4 none 0 = 2047 :=
  ⟨rfl, by decide, by decide, by decide, by decide⟩

/-- Witness for C2 at model GPT3, prior context 1000 tokens. -/
theorem max_words_default_formula_witness :
    1000 ≤ (Models.GPT3).max_context_tokens ∧
    max_words Models.GPT3 none 1000 =
      ((Models.GPT3).max_context_tokens - 1000) / 3 * 3 / 4 :=
  ⟨by decide, (max_words_default_formula Models.GPT3 1000 (by decide)).1⟩

/-- C5: the role-string conversion maps `"system"`, `"assistant"` and
`"user"` one-to-one onto the three LLM roles, and every other string is
rejected with a panic (modelled as `none`) — never silently coerced to a
valid role. -/
theorem wrapperRole_mapping (s : String) :
    wrapperRoleFromString "system" = some Role.System ∧
    wrapperRoleFromString "assistant" = some Role.Assistant ∧
    wrapperRoleFromString "user" = some Role.User ∧
    (¬ validRole s → wrapperRoleFromString s = none) := by
  refine ⟨rfl, rfl, rfl, fun h => ?_⟩
  unfold validRole at h
  push_neg at h
  obtain ⟨h1, h2, h3⟩ := h
  simp [wrapperRoleFromString, h1, h2, h3]

/-- Witness for C5 at the invalid role string `"narrator"`. -/
theorem wrapperRole_mapping_witness :
    ¬ validRole "narrator" ∧ wrapperRoleFromString "narrator" = none :=
  ⟨by decide, (wrapperRole_mapping "narrator").2.2.2 (by decide)⟩

theorem validRole_append_user (msgs : List ContextMessage) (uname msg t : String)
    (h : ∀ m ∈ msgs, validRole m.role) :
    ∀ m ∈ msgs ++ [userMessage uname msg t], validRole m.role := by
  intro m hm
  rcases List.mem_append.mp hm with hm | hm
  · exact h m hm
  · simp only [List.mem_singleton] at hm
    subst hm
    right; right; rfl

/-- C3: when the state load succeeds (and the stored messages carry valid
roles, so rendering does not panic) but the LLM invocation fails or the
extracted first-choice content is absent, `prompt` aborts with a typed
`WeaveError`, performs no save, and the persisted story part for the
weaving identity is left identical to its pre-call value — the appended
user message is never persisted alone. -/
theorem prompt_llm_failure_preserves_storage (env : PromptEnv) (model : Models)
    (system msg username : String) (pseudo_username : Option String)
    (lp : Option StoryPart)
    (hload : env.load_result = .ok lp)
    (hroles : ∀ m ∈ (lp.getD StoryPart.default).context_messages, validRole m.role)
    (hfail : env.llm_result = .error () ∨
      ∃ c cs, env.llm_result = .ok { choices := c :: cs } ∧ c.message.content = none) :
    (∃ e, (prompt env model system msg username pseudo_username).outcome =
      PromptOutcome.err e) ∧
    (prompt env model system msg username pseudo_username).saved = none ∧
    finalStorage lp (prompt env model system msg username pseudo_username).saved = lp := by
  have hroles' := validRole_append_user _ (composeUsername username pseudo_username)
    msg env.now_user hroles
  rcases hfail with hf | ⟨c, cs, hf, hc⟩
  · simp only [prompt, hload]
    rw [renderRequest_eq _ _ _ hroles', hf]
    exact ⟨⟨_, rfl⟩, rfl, rfl⟩
  · obtain ⟨⟨oc⟩⟩ := c
    change oc = none at hc
    subst hc
    simp only [prompt, hload]
    rw [renderRequest_eq _ _ _ hroles', hf]
    exact ⟨⟨_, rfl⟩, rfl, rfl⟩

/-- Shared concrete successful-save collaborator for witnesses. -/
def testSave : StoryPart → Bool → Except String Unit := fun _ _ => .ok ()

/-- Concrete environment whose LLM call fails. -/
def envLLMFail : PromptEnv :=
  { load_result := .ok none, llm_result := .error (), save_result := testSave,
    now_user := "t1", now_assistant := "t2" }

/-- Witness for C3: a failing LLM call on a fresh story leaves storage
empty and surfaces a typed error. -/
theorem prompt_llm_failure_preserves_storage_witness :
    (∃ e, (prompt envLLMFail Models.GPT3 "sys" "hi" "Bob" none).outcome =
      PromptOutcome.err e) ∧
    (prompt envLLMFail Models.GPT3 "sys" "hi" "Bob" none).saved = none ∧
    finalStorage none (prompt envLLMFail Models.GPT3 "sys" "hi" "Bob" none).saved = none :=
  prompt_llm_failure_preserves_storage envLLMFail Models.GPT3 "sys" "hi" "Bob" none none
    rfl (by simp [StoryPart.default]) (Or.inl rfl)

/-- C10: with the state loaded and roles valid, an LLM response with an
empty `choices` list makes `prompt` panic (the `res.choices[0]` index is
out of bounds) rather than return a typed error, while the typed
`FailedToGetContent` error arises exactly when a first choice exists but
its message content is absent. -/
theorem prompt_empty_choices_panics (env : PromptEnv) (model : Models)
    (system msg username : String) (pseudo_username : Option String)
    (lp : Option StoryPart)
    (hload : env.load_result = .ok lp)
    (hroles : ∀ m ∈ (lp.getD StoryPart.default).context_messages, validRole m.role) :
    (env.llm_result = .ok { choices := [] } →
      (prompt env model system msg username pseudo_username).outcome =
        PromptOutcome.panicked) ∧
    (∀ c cs, env.llm_result = .ok { choices := c :: cs } → c.message.content = none →
      (prompt env model system msg username pseudo_username).outcome =
        PromptOutcome.err WeaveError.FailedToGetContent) := by
  have hroles' := validRole_append_user _ (composeUsername username pseudo_username)
    msg env.now_user hroles
  constructor
  · intro hf
    simp only [prompt, hload]
    rw [renderRequest_eq _ _ _ hroles', hf]
  · intro c cs hf hc
    obtain ⟨⟨oc⟩⟩ := c
    change oc = none at hc
    subst hc
    simp only [prompt, hload]
    rw [renderRequest_eq _ _ _ hroles', hf]

/-- Concrete environment whose LLM call succeeds with an empty choices
list. -/
def envEmptyChoices : PromptEnv :=
  { load_result := .ok none, llm_result := .ok { choices := [] },
    save_result := testSave, now_user := "t1", now_assistant := "t2" }

/-- Witness for C10: an empty choices list yields a panic. -/
theorem prompt_empty_choices_panics_witness :
    envEmptyChoices.llm_result = .ok { choices := [] } ∧
    (prompt envEmptyChoices Models.GPT3 "sys" "hi" "Bob" none).outcome =
      PromptOutcome.panicked :=
  ⟨rfl, (prompt_empty_choices_panics envEmptyChoices Models.GPT3 "sys" "hi" "Bob" none none
    rfl (by simp [StoryPart.default])).1 rfl⟩

/-- C4: a successful `prompt` call persists, with `increment = false`,
the loaded story part extended by exactly one user message (content =
the caller's text, in the composed display name) followed by exactly one
assistant message (content = the extracted reply), and returns the
persisted assistant message's content. -/
theorem prompt_success_persists_pair (env : PromptEnv) (model : Models)
    (system msg username : String) (pseudo_username : Option String)
    (lp : Option StoryPart) (r : String) (cs : List ChatChoice)
    (hload : env.load_result = .ok lp)
    (hroles : ∀ m ∈ (lp.getD StoryPart.default).context_messages, validRole m.role)
    (hllm : env.llm_result =
      .ok { choices := { message := { content := some r } } :: cs })
    (hsave : ∀ sp b, env.save_result sp b = .ok ()) :
    (prompt env model system msg username pseudo_username).outcome =
      PromptOutcome.ok r ∧
    (prompt env model system msg username pseudo_username).saved =
      some
        ( { lp.getD StoryPart.default with
            context_messages := (lp.getD StoryPart.default).context_messages ++
              [userMessage (composeUsername username pseudo_username) msg env.now_user,
               assistantMessage r env.now_assistant] }
        , false ) := by
  rw [prompt_success_trace env model system msg username pseudo_username lp r cs
    hload hroles hllm hsave]
  exact ⟨rfl, rfl⟩

/-- Concrete environment whose LLM call succeeds with reply `"reply"`. -/
def envOkReply : PromptEnv :=
  { load_result := .ok none,
    llm_result := .ok { choices := [{ message := { content := some "reply" } }] },
    save_result := testSave, now_user := "t1", now_assistant := "t2" }

/-- Witness for C4: a successful call on a fresh story persists exactly
the user/assistant pair and returns the reply. -/
theorem prompt_success_persists_pair_witness :
    (prompt envOkReply Models.GPT3 "sys" "hi" "Bob" (some "-the-bard")).outcome =
      PromptOutcome.ok "reply" ∧
    (prompt envOkReply Models.GPT3 "sys" "hi" "Bob" (some "-the-bard")).saved =
      some
        ( { (none : Option StoryPart).getD StoryPart.default with
            context_messages :=
              ((none : Option StoryPart).getD StoryPart.default).context_messages ++
                [userMessage (composeUsername "Bob" (some "-the-bard")) "hi" "t1",
                 assistantMessage "reply" "t2"] }
        , false ) :=
  prompt_success_persists_pair envOkReply Models.GPT3 "sys" "hi" "Bob" (some "-the-bard")
    none "reply" [] rfl (by simp [StoryPart.default]) rfl (fun _ _ => rfl)

theorem prompt_trace_cases (env : PromptEnv) (model : Models)
    (system msg username : String) (pseudo_username : Option String)
    (lp : Option StoryPart)
    (hload : env.load_result = .ok lp)
    (hroles : ∀ m ∈ (lp.getD StoryPart.default).context_messages, validRole m.role) :
    ((prompt env model system msg username pseudo_username).llm_request = none ∨
      (prompt env model system msg username pseudo_username).llm_request =
        some
          ( { role := Role.System, content := system, name := none } ::
              ((lp.getD StoryPart.default).context_messages ++
                [userMessage (composeUsername username pseudo_username) msg
                  env.now_user]).map
                (renderedOf (composeUsername username pseudo_username))
          , max_words model none (lp.getD StoryPart.default).context_tokens )) ∧
    ((prompt env model system msg username pseudo_username).saved = none ∨
      ∃ rc, (prompt env model system msg username pseudo_username).saved =
        some
          ( { lp.getD StoryPart.default with
              context_messages := (lp.getD StoryPart.default).context_messages ++
                [userMessage (composeUsername username pseudo_username) msg env.now_user,
                 assistantMessage rc env.now_assistant] }
          , false )) := by
  have hroles' := validRole_append_user _ (composeUsername username pseudo_username)
    msg env.now_user hroles
  simp only [prompt, hload]
  rw [renderRequest_eq _ _ _ hroles']
  cases hE : env.llm_result with
  | error e => exact ⟨Or.inr rfl, Or.inl rfl⟩
  | ok res =>
    obtain ⟨choices⟩ := res
    cases choices with
    | nil => exact ⟨Or.inr rfl, Or.inl rfl⟩
    | cons c cs =>
      obtain ⟨⟨oc⟩⟩ := c
      cases oc with
      | none => exact ⟨Or.inr rfl, Or.inl rfl⟩
      | some rc =>
        simp only []
        constructor
        · split <;> exact Or.inr rfl
        · split
          · exact Or.inl rfl
          · exact Or.inr ⟨rc, by simp [List.append_assoc]⟩

/-- C6: whenever `prompt` hands a request payload to the LLM, that
payload is exactly the system directive as the first, system-role entry
(no display name), followed by every message of the story state —
including the just-appended user message — in stored order, each
rendered by `renderedOf` (role mapped into the LLM role enumeration,
display name attached). -/
theorem prompt_payload_shape (env : PromptEnv) (model : Models)
    (system msg username : String) (pseudo_username : Option String)
    (lp : Option StoryPart)
    (hload : env.load_result = .ok lp)
    (hroles : ∀ m ∈ (lp.getD StoryPart.default).context_messages, validRole m.role) :
    ∀ pl, (prompt env model system msg username pseudo_username).llm_request = some pl →
      pl.1 = { role := Role.System, content := system, name := none } ::
        ((lp.getD StoryPart.default).context_messages ++
          [userMessage (composeUsername username pseudo_username) msg env.now_user]).map
          (renderedOf (composeUsername username pseudo_username)) := by
  intro pl h
  rcases (prompt_trace_cases env model system msg username pseudo_username lp
    hload hroles).1 with h1 | h1
  · rw [h1] at h
    cases h
  · rw [h1] at h
    cases h
    rfl

/-- Witness for C6 at a fresh story: the payload is the system entry
followed by the rendered user message. -/
theorem prompt_payload_shape_witness :
    (prompt envOkReply Models.GPT3 "sys" "hi" "Bob" (some "-the-bard")).llm_request =
      some
        ( [{ role := Role.System, content := "sys", name := none },
           { role := Role.User, content := "hi", name := some "Bob-the-bard" }]
        , 1023 ) ∧
    ( [{ role := Role.System, content := "sys", name := none },
       { role := Role.User, content := "hi", name := some "Bob-the-bard" }]
    , (1023 : Nat) ).1 =
      { role := Role.System, content := "sys", name := none } ::
        (((none : Option StoryPart).getD StoryPart.default).context_messages ++
          [userMessage (composeUsername "Bob" (some "-the-bard")) "hi" "t1"]).map
          (renderedOf (composeUsername "Bob" (some "-the-bard"))) :=
  ⟨by decide, prompt_payload_shape envOkReply Models.GPT3 "sys" "hi" "Bob"
    (some "-the-bard") none rfl (by simp [StoryPart.default]) _ (by decide)⟩

/-- C8: `prompt` never modifies `context_tokens`: the word budget handed
to the LLM is computed from the loaded (pre-append) `context_tokens`
value, and any story part it saves still carries `context_tokens` equal
to the loaded value even though two messages were appended. -/
theorem prompt_context_tokens_frame (env : PromptEnv) (model : Models)
    (system msg username : String) (pseudo_username : Option String)
    (lp : Option StoryPart)
    (hload : env.load_result = .ok lp)
    (hroles : ∀ m ∈ (lp.getD StoryPart.default).context_messages, validRole m.role) :
    (∀ pl, (prompt env model system msg username pseudo_username).llm_request = some pl →
      pl.2 = max_words model none (lp.getD StoryPart.default).context_tokens) ∧
    (∀ sp b, (prompt env model system msg username pseudo_username).saved = some (sp, b) →
      sp.context_tokens = (lp.getD StoryPart.default).context_tokens) := by
  obtain ⟨h1, h2⟩ := prompt_trace_cases env model system msg username pseudo_username lp
    hload hroles
  constructor
  · intro pl h
    rcases h1 with h1 | h1
    · rw [h1] at h
      cases h
    · rw [h1] at h
      cases h
      rfl
  · intro sp b h
    rcases h2 with h2 | ⟨rc, h2⟩
    · rw [h2] at h
      cases h
    · rw [h2] at h
      cases h
      rfl

/-- Witness for C8 at a fresh story: the saved part keeps the loaded
`context_tokens` value 0. -/
theorem prompt_context_tokens_frame_witness :
    (prompt envOkReply Models.GPT3 "sys" "hi" "Bob" none).saved =
      some
        ( { players := [], context_tokens := 0,
            context_messages := [userMessage "Bob" "hi" "t1",
              assistantMessage "reply" "t2"] }
        , false ) ∧
    ({ players := [], context_tokens := 0,
       context_messages := [userMessage "Bob" "hi" "t1",
         assistantMessage "reply" "t2"] } : StoryPart).context_tokens =
      ((none : Option StoryPart).getD StoryPart.default).context_tokens :=
  ⟨by decide, (prompt_context_tokens_frame envOkReply Models.GPT3 "sys" "hi" "Bob" none
    none rfl (by simp [StoryPart.default])).2 _ false (by decide)⟩

/-- C7: the effective display name is the literal concatenation of
username and pseudo-username with no separator (`"Bob" ++ "-the-bard" =
"Bob-the-bard"`), the username alone when no pseudo-username is given;
every rendered user- or assistant-role message of the turn carries that
composed name, and every rendered system-role message carries the fixed
name `"Loreweaver"`. -/
theorem display_name_composition (u p : String) (m : ContextMessage) :
    composeUsername u (some p) = u ++ p ∧
    composeUsername u none = u ∧
    composeUsername "Bob" (some "-the-bard") = "Bob-the-bard" ∧
    (m.role = "user" ∨ m.role = "assistant" →
      (renderContextMessage (composeUsername u (some p)) m).map
        (fun rm => rm.name) = some (some (u ++ p))) ∧
    (m.role = "system" →
      (renderContextMessage (composeUsername u (some p)) m).map
        (fun rm => rm.name) = some (some "Loreweaver")) := by
  refine ⟨rfl, rfl, by decide, fun h => ?_, fun h => ?_⟩
  · have hv : validRole m.role := by
      rcases h with h | h
      · exact Or.inr (Or.inr h)
      · exact Or.inr (Or.inl h)
    rw [renderContextMessage_eq _ _ hv]
    rcases h with h | h <;> simp [renderedOf, h, composeUsername]
  · rw [renderContextMessage_eq _ _ (Or.inl h)]
    simp [renderedOf, h]

/-- Witness for C7 at a user-role message. -/
theorem display_name_composition_witness :
    ((userMessage "x" "hi" "t").role = "user" ∨
      (userMessage "x" "hi" "t").role = "assistant") ∧
    (renderContextMessage (composeUsername "Bob" (some "-the-bard"))
      (userMessage "x" "hi" "t")).map (fun rm => rm.name) =
      some (some ("Bob" ++ "-the-bard")) :=
  ⟨Or.inl rfl, (display_name_composition "Bob" "-the-bard"
    (userMessage "x" "hi" "t")).2.2.2.1 (Or.inl rfl)⟩

/-- One scripted turn of a multi-call run: the caller's text, the LLM
reply, and the two clock readings of the call. -/
structure TurnInput where
  msg : String
  reply : String
  now_user : String
  now_assistant : String
deriving DecidableEq, Repr

/-- A well-behaved environment for one turn against a single identity:
the load returns the currently stored part, the LLM returns one choice
carrying `t.reply`, and the save succeeds. -/
def mkEnv (stored : Option StoryPart) (t : TurnInput) : PromptEnv :=
  { load_result := .ok stored
  , llm_result := .ok { choices := [{ message := { content := some t.reply } }] }
  , save_result := fun _ _ => .ok ()
  , now_user := t.now_user
  , now_assistant := t.now_assistant }

/-- Iterated `prompt` calls for one weaving identity: each call loads
the stored part left by the previous call (`finalStorage`) and runs the
next scripted turn. -/
def runPrompts (model : Models) (system username : String)
    (pseudo_username : Option String) :
    List TurnInput → Option StoryPart → Option StoryPart
  | [], stored => stored
  | t :: rest, stored =>
      runPrompts model system username pseudo_username rest
        (finalStorage stored
          (prompt (mkEnv stored t) model system t.msg username pseudo_username).saved)

/-- The user/assistant message pair one successful turn appends. -/
def turnMessages (uname : String) (t : TurnInput) : List ContextMessage :=
  [userMessage uname t.msg t.now_user, assistantMessage t.reply t.now_assistant]

theorem validRole_turn_append (msgs : List ContextMessage)
    (uname tmsg tu reply ta : String)
    (h : ∀ m ∈ msgs, validRole m.role) :
    ∀ m ∈ msgs ++ [userMessage uname tmsg tu, assistantMessage reply ta],
      validRole m.role := by
  intro m hm
  rcases List.mem_append.mp hm with hm | hm
  · exact h m hm
  · rcases List.mem_cons.mp hm with hm | hm
    · subst hm
      right; right; rfl
    · simp only [List.mem_singleton] at hm
      subst hm
      right; left; rfl

theorem runPrompts_some (model : Models) (system username : String)
    (pseudo_username : Option String) (ts : List TurnInput) (sp : StoryPart)
    (hroles : ∀ m ∈ sp.context_messages, validRole m.role) :
    runPrompts model system username pseudo_username ts (some sp) =
      some { sp with
        context_messages := (sp.context_messages ++
          ts.flatMap (turnMessages (composeUsername username pseudo_username))) } := by
  induction ts generalizing sp with
  | nil => simp [runPrompts]
  | cons t rest ih =>
    have hstep := prompt_success_trace (mkEnv (some sp) t) model system t.msg username
      pseudo_username (some sp) t.reply [] rfl hroles rfl (fun _ _ => rfl)
    have hroles2 := validRole_turn_append sp.context_messages
      (composeUsername username pseudo_username) t.msg t.now_user t.reply
      t.now_assistant hroles
    have hsaved : finalStorage (some sp)
        (prompt (mkEnv (some sp) t) model system t.msg username pseudo_username).saved =
        some { players := sp.players, context_tokens := sp.context_tokens,
               context_messages := sp.context_messages ++
                 [userMessage (composeUsername username pseudo_username) t.msg t.now_user,
                  assistantMessage t.reply t.now_assistant] } := by
      rw [hstep]
      rfl
    simp only [runPrompts]
    rw [hsaved]
    rw [ih { players := sp.players, context_tokens := sp.context_tokens,
             context_messages := sp.context_messages ++
               [userMessage (composeUsername username pseudo_username) t.msg t.now_user,
                assistantMessage t.reply t.now_assistant] } hroles2]
    simp [turnMessages, List.append_assoc]

theorem length_flatMap_turnMessages (uname : String) (ts : List TurnInput) :
    (ts.flatMap (turnMessages uname)).length = 2 * ts.length := by
  induction ts with
  | nil => rfl
  | cons t rest ih =>
    simp only [List.flatMap_cons, List.length_append, ih, turnMessages]
    simp [Nat.mul_succ]
    omega

/-- C9: any number N of successful `prompt` calls starting from an
initially empty (default) story state leaves a persisted segment of
exactly 2N messages in chronological append order — each call's user
message followed by its assistant message — and the players roster is
left unchanged (still the default empty roster). -/
theorem prompt_chain_appends_pairs (model : Models) (system username : String)
    (pseudo_username : Option String) (ts : List TurnInput) :
    ((runPrompts model system username pseudo_username ts none).getD
      StoryPart.default).players = StoryPart.default.players ∧
    ((runPrompts model system username pseudo_username ts none).getD
      StoryPart.default).context_messages =
      ts.flatMap (turnMessages (composeUsername username pseudo_username)) ∧
    ((runPrompts model system username pseudo_username ts none).getD
      StoryPart.default).context_messages.length = 2 * ts.length := by
  have key :
      (runPrompts model system username pseudo_username ts none).getD StoryPart.default =
        { players := [], context_tokens := 0,
          context_messages :=
            ts.flatMap (turnMessages (composeUsername username pseudo_username)) } := by
    cases ts with
    | nil => rfl
    | cons t rest =>
      have hstep := prompt_success_trace (mkEnv none t) model system t.msg username
        pseudo_username none t.reply [] rfl (by simp [StoryPart.default]) rfl
        (fun _ _ => rfl)
      have hroles1 := validRole_turn_append []
        (composeUsername username pseudo_username) t.msg t.now_user t.reply
        t.now_assistant (by simp)
      have hsaved : finalStorage none
          (prompt (mkEnv none t) model system t.msg username pseudo_username).saved =
          some { players := [], context_tokens := 0,
                 context_messages :=
                   [userMessage (composeUsername username pseudo_username) t.msg t.now_user,
                    assistantMessage t.reply t.now_assistant] } := by
        rw [hstep]
        rfl
      simp only [runPrompts]
      rw [hsaved]
      rw [runPrompts_some model system username pseudo_username rest
        { players := [], context_tokens := 0,
          context_messages :=
            [userMessage (composeUsername username pseudo_username) t.msg t.now_user,
             assistantMessage t.reply t.now_assistant] } hroles1]
      simp [turnMessages, List.flatMap_cons]
  rw [key]
  exact ⟨rfl, rfl, length_flatMap_turnMessages _ _⟩

end Loom
